import Mathlib

set_option linter.unusedVariables false

/-!
Verification development for the gPodder public developer API facade
(`src/gpodder/api.py`), shallowly embedded in Lean.

The facade is pure delegation over collaborator modules (persistent store,
feed loader, downloader, OPML exporter, URL normalizer) that are not part
of the sources; every definition standing in for such a collaborator is
marked `Modelled from the spec:` in its doc comment.  All definitions for
the facade itself are direct translations of the Python source in
`api.py`; stateful code is embedded as explicit state passing over a
`World` record, and the order of collaborator calls is recorded as an
explicit event trace where a claim is about ordering.
-/

namespace GpodderApi

/-- Episode lifecycle state of the underlying episode entity: the three
distinct constants `gpodder.STATE_NORMAL`, `gpodder.STATE_DOWNLOADED`,
`gpodder.STATE_DELETED` referenced by `api.py`. -/
inductive EpisodeState where
  | normal
  | downloaded
  | deleted
  deriving DecidableEq, BEq

/-- Underlying episode entity, as used by `api.py`: per the spec the
collaborator episode entity exposes `title`, `url`, a lifecycle state in
{normal, downloaded, deleted} and a played flag; `channelUrl` records
which subscription the episode belongs to. -/
structure EpisodeEntity where
  title : String
  url : String
  channelUrl : String
  state : EpisodeState
  is_played : Bool
  deriving DecidableEq

/-- Underlying podcast channel entity, as used by `api.py`: per the spec
the collaborator channel entity exposes `title` and `url`. -/
structure PodcastEntity where
  title : String
  url : String
  deriving DecidableEq

/-- The `Episode` projection of `api.py`: holds the internal reference
`_episode` plus the public attributes copied or derived at construction
time (`Episode.__init__`, api.py lines 98-106).  The reference is an
`Option` so that a cleared reference (`None` in Python) is expressible. -/
structure Episode where
  _episode : Option EpisodeEntity
  title : String
  url : String
  is_new : Bool
  is_downloaded : Bool
  is_deleted : Bool
  deriving DecidableEq

/-- `Episode.__init__` (api.py lines 98-106): copies `title` and `url`
from the wrapped entity and computes the three derived booleans:
`is_new = (state == STATE_NORMAL and not is_played)`,
`is_downloaded = (state == STATE_DOWNLOADED)`,
`is_deleted = (state == STATE_DELETED)`. -/
def Episode.ofEntity (e : EpisodeEntity) : Episode :=
  { _episode := some e
    title := e.title
    url := e.url
    is_new := e.state == EpisodeState.normal && !e.is_played
    is_downloaded := e.state == EpisodeState.downloaded
    is_deleted := e.state == EpisodeState.deleted }

/-- The `Podcast` projection of `api.py`: holds the internal reference
`_podcast` plus the public attributes `title` and `url` copied at
construction time (`Podcast.__init__`, api.py lines 45-49). -/
structure Podcast where
  _podcast : Option PodcastEntity
  title : String
  url : String
  deriving DecidableEq

/-- `Podcast.__init__` (api.py lines 45-49). -/
def Podcast.ofEntity (p : PodcastEntity) : Podcast :=
  { _podcast := some p, title := p.title, url := p.url }

/-!
### The world state and the collaborator services

`api.py` acts on process-wide collaborator state: the persistent store of
subscriptions and episodes (`db` and the channel entities), the set of
locally downloaded episode files, and the OPML subscription file written
by `finish`.  None of that code is in the sources, so the state is
modelled from the spec as one record, and each collaborator call as a
function over it.
-/

/-- Modelled from the spec: the state owned by the collaborators.
`subs` is the persistent store's subscription list, `episodes` its
episode table, `files` the locally downloaded episode content (pairs of
channel URL and episode URL), `opmlFile` the content of the configured
OPML subscription file (`none` when the file does not exist), and
`pendingCommit` whether the store has uncommitted changes. -/
structure World where
  subs : List PodcastEntity
  episodes : List EpisodeEntity
  files : List (String × String)
  opmlFile : Option (List PodcastEntity)
  pendingCommit : Bool
  deriving DecidableEq

/-- The configuration values `api.py` reads from the global `gl.config`. -/
structure Config where
  download_dir : String
  max_episodes_per_feed : Nat

/-- Collaborator events emitted by the facade, in call order; used to
state claims about the order of collaborator calls. -/
inductive Event where
  | loadFromDb
  | opmlWrite (subs : List PodcastEntity)
  | storeCommit
  | removeDownloaded (channelUrl : String)
  | channelDelete (channelUrl : String)
  | taskCreate (episodeUrl : String)
  | taskSetQueued
  | taskRun
  deriving DecidableEq

/-- Modelled from the spec: `PodcastChannel.load_from_db(db, dir)` returns
all subscribed channel entities from the persistent store, scoped by the
download directory (which does not affect the returned set here). -/
def PodcastChannel.load_from_db (w : World) (download_dir : String) :
    List PodcastEntity :=
  w.subs

/-- Modelled from the spec: `PodcastChannel.load(db, url, create, ...)`
looks up a subscription by URL in the store; when `create` is set and no
subscription matches, it requests creation of a new subscription from the
feed source (which may fail, e.g. the feed is unreachable or invalid) and
appends the created entity to the store.  `max_episodes` and
`download_dir` only bound the collaborator and do not affect the lookup
in this model. -/
def PodcastChannel.load (feed : String → Option PodcastEntity) (w : World)
    (url : String) (create : Bool) (max_episodes : Option Nat)
    (download_dir : String) : Option PodcastEntity × World :=
  match w.subs.find? (fun s => s.url == url) with
  | some s => (some s, w)
  | none =>
    if create then
      match feed url with
      | some s =>
        (some s, { w with subs := w.subs ++ [s], pendingCommit := true })
      | none => (none, w)
    else (none, w)

/-- Modelled from the spec: the channel entity's `set_custom_title(s)`
sets the display title to the given string. -/
def PodcastEntity.set_custom_title (e : PodcastEntity) (t : String) :
    PodcastEntity :=
  { e with title := t }

/-- Modelled from the spec: the channel entity's `save()` persists the
entity's current state into the store, keyed by its feed URL, leaving a
pending store commit. -/
def PodcastEntity.save (e : PodcastEntity) (w : World) : World :=
  { w with
      subs := w.subs.map (fun x => if x.url == e.url then e else x)
      pendingCommit := true }

/-- Modelled from the spec: the channel entity's `remove_downloaded()`
deletes all locally downloaded episode content belonging to this
subscription. -/
def PodcastEntity.remove_downloaded (e : PodcastEntity) (w : World) :
    World :=
  { w with files := w.files.filter (fun f => f.1 != e.url) }

/-- Modelled from the spec: the channel entity's `delete()` removes the
subscription itself from the store. -/
def PodcastEntity.delete (e : PodcastEntity) (w : World) : World :=
  { w with
      subs := w.subs.filter (fun s => s.url != e.url)
      pendingCommit := true }

/-- Modelled from the spec: the channel entity's `get_all_episodes()`
queries all episodes currently associated with this channel in the
store. -/
def PodcastEntity.get_all_episodes (e : PodcastEntity) (w : World) :
    List EpisodeEntity :=
  w.episodes.filter (fun x => x.channelUrl == e.url)

/-- Modelled from the spec: `opml.Exporter(path).write(entities)`
overwrites the configured subscription file with exactly the given
entities. -/
def Exporter.write (w : World) (podcasts : List PodcastEntity) : World :=
  { w with opmlFile := some podcasts }

/-- Modelled from the spec: `db.commit()` flushes all pending store
changes. -/
def Db.commit (w : World) : World :=
  { w with pendingCommit := false }

/-- Status markers of the downloader's task; `QUEUED` is the marker
`api.py` assigns before running a task. -/
inductive TaskStatus where
  | INIT
  | QUEUED
  | DONE
  deriving DecidableEq

/-- Modelled from the spec: the downloader's task object — constructed
from one episode entity, carrying a status marker and a synchronous
`run()`. -/
structure DownloadTask where
  episode : EpisodeEntity
  status : TaskStatus
  deriving DecidableEq

/-- Modelled from the spec: `download.DownloadTask(episode)` constructs a
fresh task for the episode entity, not yet queued. -/
def DownloadTask.create (e : EpisodeEntity) : DownloadTask :=
  { episode := e, status := TaskStatus.INIT }

/-- Modelled from the spec: `task.run()` synchronously downloads the
episode content to a local file, marking the stored episode entity as
downloaded and the task as done, all before returning. -/
def DownloadTask.run (t : DownloadTask) (w : World) : DownloadTask × World :=
  ({ t with status := TaskStatus.DONE },
   { w with
       episodes := w.episodes.map (fun x =>
         if x.url == t.episode.url then
           { x with state := EpisodeState.downloaded }
         else x)
       files := (t.episode.channelUrl, t.episode.url) :: w.files })

/-!
### The facade methods and functions, translated from `api.py`

Each stateful method takes the `World` explicitly and returns the new
`World` (plus, where a claim is about call order, the trace of
collaborator events).  A method called on a projection whose internal
reference has been cleared returns `none` (in Python, attribute access on
`None` raises). -/

/-- Entity-level effects of the channel collaborator calls issued by
`Podcast.rename`.  Modelled from the spec: the channel entity exposes
`set_custom_title(s)` and `save()`; their effect on the entity's fields
is collaborator-defined (the spec notes the entity may normalize a
requested title), so both are arbitrary functions here. -/
structure ChannelOps where
  set_custom_title : PodcastEntity → String → PodcastEntity
  save : PodcastEntity → PodcastEntity

/-- `Podcast.rename` (api.py lines 57-64), translated statement by
statement: `self._podcast.set_custom_title(title)`, then
`self.title = self._podcast.title`, then `self._podcast.save()`. -/
def Podcast.rename (ops : ChannelOps) (p : Podcast) (title : String) :
    Option Podcast :=
  match p._podcast with
  | none => none
  | some e =>
    let e1 := ops.set_custom_title e title
    let cachedTitle := e1.title
    let e2 := ops.save e1
    some { p with _podcast := some e2, title := cachedTitle }

/-- Modelled from the spec (for comparison with `Podcast.rename`): the
spec's wording of rename — set the custom title, persist it via a
synchronous save, and then refresh the projection's cached title. -/
def Podcast.renameSpecOrder (ops : ChannelOps) (p : Podcast)
    (title : String) : Option Podcast :=
  match p._podcast with
  | none => none
  | some e =>
    let e1 := ops.set_custom_title e title
    let e2 := ops.save e1
    some { p with _podcast := some e2, title := e2.title }

/-- `Podcast.delete` (api.py lines 66-73), translated statement by
statement: `self._podcast.remove_downloaded()`, then
`self._podcast.delete()`, then `self._podcast = None`. -/
def Podcast.delete (w : World) (p : Podcast) :
    Option (Podcast × World × List Event) :=
  match p._podcast with
  | none => none
  | some e =>
    let w1 := e.remove_downloaded w
    let w2 := e.delete w1
    some ({ p with _podcast := none }, w2,
      [Event.removeDownloaded e.url, Event.channelDelete e.url])

/-- `Podcast.get_episodes` (api.py lines 51-55): wraps every episode of
the underlying channel in an `Episode` projection. -/
def Podcast.get_episodes (w : World) (p : Podcast) :
    Option (List Episode) :=
  match p._podcast with
  | none => none
  | some e => some ((e.get_all_episodes w).map Episode.ofEntity)

/-- `Episode.download` (api.py lines 108-116), translated statement by
statement: `task = download.DownloadTask(self._episode)`, then
`task.status = download.DownloadTask.QUEUED`, then `task.run()`. -/
def Episode.download (w : World) (ep : Episode) :
    Option (Episode × World × List Event) :=
  match ep._episode with
  | none => none
  | some e =>
    let task := DownloadTask.create e
    let task1 := { task with status := TaskStatus.QUEUED }
    let (_, w1) := task1.run w
    some (ep, w1,
      [Event.taskCreate e.url, Event.taskSetQueued, Event.taskRun])

/-- `get_podcasts` (api.py lines 119-124). -/
def get_podcasts (cfg : Config) (w : World) : List Podcast :=
  (PodcastChannel.load_from_db w cfg.download_dir).map Podcast.ofEntity

/-- `get_podcast` (api.py lines 126-137): normalize the URL, look the
subscription up with `create=False`, and return `None` when there is no
match, otherwise the wrapped projection. -/
def get_podcast (norm : String → String)
    (feed : String → Option PodcastEntity) (cfg : Config) (w : World)
    (url : String) : Option Podcast × World :=
  let nurl := norm url
  match PodcastChannel.load feed w nurl false none cfg.download_dir with
  | (none, w1) => (none, w1)
  | (some channel, w1) => (some (Podcast.ofEntity channel), w1)

/-- `create_podcast` (api.py lines 139-154): normalize the URL, load with
`create=True` bounded by the configured maximum episode count and
download directory; on failure return `None`; on success apply the
optional title override, save, and return the wrapped projection. -/
def create_podcast (norm : String → String)
    (feed : String → Option PodcastEntity) (cfg : Config) (w : World)
    (url : String) (title : Option String) : Option Podcast × World :=
  let nurl := norm url
  match PodcastChannel.load feed w nurl true
      (some cfg.max_episodes_per_feed) cfg.download_dir with
  | (some podcast, w1) =>
    let podcast1 :=
      match title with
      | some t => podcast.set_custom_title t
      | none => podcast
    let w2 := podcast1.save w1
    (some (Podcast.ofEntity podcast1), w2)
  | (none, w1) => (none, w1)

/-- `finish` (api.py lines 164-174), translated statement by statement:
reload the subscription list, write it to the configured OPML
subscription file, commit the store, return `True`. -/
def finish (cfg : Config) (w : World) : Bool × World × List Event :=
  let podcasts := PodcastChannel.load_from_db w cfg.download_dir
  let w1 := Exporter.write w podcasts
  let w2 := Db.commit w1
  (true, w2, [Event.loadFromDb, Event.opmlWrite podcasts, Event.storeCommit])

/-!
### Concrete data used by counterexamples and witnesses
-/

/-- Concrete channel operations used as counterexample data: the entity
sets the custom title verbatim, and its save canonicalizes the stored
title by appending a marker (the spec leaves the entity free to normalize
titles; nothing fixes at which of the two calls this happens). -/
def opsSaveNormalizes : ChannelOps :=
  { set_custom_title := fun e t => { e with title := t }
    save := fun e => { e with title := e.title ++ "*" } }

/-- Concrete channel operations whose save does not touch the entity. -/
def opsIdSave : ChannelOps :=
  { set_custom_title := fun e t => { e with title := t }
    save := fun e => e }

/-- A concrete subscribed channel entity. -/
def e0 : PodcastEntity := { title := "a", url := "http://example.com/feed" }

/-- The projection wrapping `e0`. -/
def p0 : Podcast := Podcast.ofEntity e0

/-- The projection produced by renaming `p0` to `"b"` under `opsIdSave`. -/
def q0 : Podcast :=
  { _podcast := some { title := "b", url := "http://example.com/feed" }
    title := "b"
    url := "http://example.com/feed" }

/-- A concrete episode entity of the `e0` channel, new and unplayed. -/
def epEnt0 : EpisodeEntity :=
  { title := "ep"
    url := "http://example.com/e1.mp3"
    channelUrl := "http://example.com/feed"
    state := EpisodeState.normal
    is_played := false }

/-- A concrete world holding the `e0` subscription, its episode, and one
downloaded file of that channel. -/
def w0 : World :=
  { subs := [e0]
    episodes := [epEnt0]
    files := [("http://example.com/feed", "http://example.com/e0.mp3")]
    opmlFile := none
    pendingCommit := false }

/-- A concrete feed source: knows one feed, unreachable elsewhere. -/
def feed0 (u : String) : Option PodcastEntity :=
  if u == "http://new.example/feed" then
    some { title := "New feed", url := u }
  else none

/-- A concrete configuration. -/
def cfg0 : Config := { download_dir := "/dl", max_episodes_per_feed := 100 }

/-- The cleared projection left behind by `p0.delete`. -/
def pDel0 : Podcast :=
  { _podcast := none, title := e0.title, url := e0.url }

/-- The world left behind by `p0.delete w0`. -/
def wDel0 : World :=
  { subs := []
    episodes := [epEnt0]
    files := []
    opmlFile := none
    pendingCommit := true }

/-- The result of downloading `epEnt0`'s projection in `w0`. -/
def dlRes0 : Episode × World × List Event :=
  (Episode.ofEntity epEnt0,
   { subs := [e0]
     episodes := [{ epEnt0 with state := EpisodeState.downloaded }]
     files := [("http://example.com/feed", "http://example.com/e1.mp3"),
               ("http://example.com/feed", "http://example.com/e0.mp3")]
     opmlFile := none
     pendingCommit := false },
   [Event.taskCreate epEnt0.url, Event.taskSetQueued, Event.taskRun])

/-!
### Helper lemmas
-/

/-- An entity whose URL already occurs in the store is in the store after
its (spec-modelled) `save`. -/
theorem mem_subs_save (e x : PodcastEntity) (w : World)
    (hx : x ∈ w.subs) (hurl : x.url = e.url) :
    e ∈ (PodcastEntity.save e w).subs := by
  simp only [PodcastEntity.save, List.mem_map]
  exact ⟨x, hx, by simp [hurl]⟩

/-!
### The claims
-/

/-- C5: for every underlying episode entity (whose lifecycle state ranges
over the three values normal, downloaded, deleted), the `Episode`
projection built from it has at most one of `is_new`, `is_downloaded`,
`is_deleted` set to `true`: the three booleans are pairwise exclusive. -/
theorem episode_flags_mutually_exclusive (e : EpisodeEntity) :
    (((Episode.ofEntity e).is_new && (Episode.ofEntity e).is_downloaded) = false)
    ∧ (((Episode.ofEntity e).is_new && (Episode.ofEntity e).is_deleted) = false)
    ∧ (((Episode.ofEntity e).is_downloaded && (Episode.ofEntity e).is_deleted) = false) := by
  rcases e with ⟨t, u, c, s, p⟩
  cases s <;> cases p <;> simp [Episode.ofEntity] <;> decide

/-- C6: the `Episode` projection computes its three booleans at
construction time as `is_new` iff (state = normal and not played),
`is_downloaded` iff state = downloaded, and `is_deleted` iff
state = deleted. -/
theorem episode_flags_formula (e : EpisodeEntity) :
    ((Episode.ofEntity e).is_new ↔ (e.state = EpisodeState.normal ∧ e.is_played = false))
    ∧ ((Episode.ofEntity e).is_downloaded ↔ e.state = EpisodeState.downloaded)
    ∧ ((Episode.ofEntity e).is_deleted ↔ e.state = EpisodeState.deleted) := by
  rcases e with ⟨t, u, c, s, p⟩
  cases s <;> cases p <;> simp [Episode.ofEntity] <;> decide

/-- C1, counterexample: with a save that normalizes the stored title,
`Podcast.rename` returns a projection whose `title` is the pre-save title
`"b"` while the underlying entity's post-save title is `"b*"` — the
projection's title does not equal the entity's post-save title, because
the code refreshes the cached title before calling save, not after it as
the claim states.  (The spec-ordered variant does satisfy the claim.) -/
theorem rename_counterexample :
    (Podcast.rename opsSaveNormalizes p0 "b").map
        (fun q => (q.title, q._podcast.map PodcastEntity.title))
      = some ("b", some "b*")
    ∧ (Podcast.renameSpecOrder opsSaveNormalizes p0 "b").map
        (fun q => (q.title, q._podcast.map PodcastEntity.title))
      = some ("b*", some "b*")
    ∧ ("b" : String) ≠ "b*" := by
  refine ⟨rfl, rfl, by decide⟩

/-- C1, amended: `Podcast.rename` sets the custom title on the entity,
refreshes the projection's cached `title` from the entity, and only then
persists via the synchronous save; hence after `rename` the projection's
`title` equals the entity's title as of immediately after
`set_custom_title`, and whenever the entity's save leaves its title
unchanged this equals the underlying entity's post-save title. -/
theorem rename_refreshes_presave_title (ops : ChannelOps) (p : Podcast)
    (t : String) (e : PodcastEntity) (q : Podcast)
    (he : p._podcast = some e) (hq : p.rename ops t = some q) :
    q.title = (ops.set_custom_title e t).title
    ∧ ((∀ x, (ops.save x).title = x.title) →
        q._podcast.map PodcastEntity.title = some q.title) := by
  rcases p with ⟨pe, pt, pu⟩
  cases he
  simp only [Podcast.rename] at hq
  cases hq
  refine ⟨rfl, fun hsave => ?_⟩
  simp [hsave]

/-- Witness for `rename_refreshes_presave_title` at concrete data: the
identity-on-title save applied to `p0`, with the inner hypothesis on the
save discharged as well. -/
theorem rename_refreshes_presave_title_witness :
    q0.title = (opsIdSave.set_custom_title e0 "b").title
    ∧ q0._podcast.map PodcastEntity.title = some q0.title := by
  refine ⟨(rename_refreshes_presave_title opsIdSave p0 "b" e0 q0 rfl rfl).1, ?_⟩
  exact (rename_refreshes_presave_title opsIdSave p0 "b" e0 q0 rfl rfl).2
    (fun x => rfl)

/-- C8: renaming affects only the title: after `Podcast.rename` the
projection's `url` attribute is unchanged and — the collaborator entity
operations not touching the feed URL — the underlying entity's feed URL
equals the original entity's. -/
theorem rename_preserves_url (ops : ChannelOps) (p : Podcast) (t : String)
    (e : PodcastEntity) (q : Podcast)
    (he : p._podcast = some e) (hq : p.rename ops t = some q) :
    q.url = p.url
    ∧ ((∀ x s, (ops.set_custom_title x s).url = x.url) →
        (∀ x, (ops.save x).url = x.url) →
        q._podcast.map PodcastEntity.url = some e.url) := by
  rcases p with ⟨pe, pt, pu⟩
  cases he
  simp only [Podcast.rename] at hq
  cases hq
  refine ⟨rfl, fun hsct hsave => ?_⟩
  simp [hsave, hsct]

/-- Witness for `rename_preserves_url` at concrete data, with the inner
hypotheses on the collaborator operations discharged as well. -/
theorem rename_preserves_url_witness :
    q0.url = p0.url
    ∧ q0._podcast.map PodcastEntity.url = some e0.url := by
  refine ⟨(rename_preserves_url opsIdSave p0 "b" e0 q0 rfl rfl).1, ?_⟩
  exact (rename_preserves_url opsIdSave p0 "b" e0 q0 rfl rfl).2
    (fun x s => rfl) (fun x => rfl)

/-- C2: `get_podcast` normalizes the URL and looks it up with creation
disabled: the store (and the rest of the world) is never changed, an
unknown normalized URL yields `none` rather than an error, and a known
normalized URL yields the projection of the matching subscription. -/
theorem get_podcast_contract (norm : String → String)
    (feed : String → Option PodcastEntity) (cfg : Config) (w : World)
    (url : String) :
    (get_podcast norm feed cfg w url).2 = w
    ∧ (w.subs.find? (fun s => s.url == norm url) = none →
        (get_podcast norm feed cfg w url).1 = none)
    ∧ (∀ s, w.subs.find? (fun s2 => s2.url == norm url) = some s →
        (get_podcast norm feed cfg w url).1 = some (Podcast.ofEntity s)) := by
  cases hfind : w.subs.find? (fun s => s.url == norm url) with
  | none => simp [get_podcast, PodcastChannel.load, hfind]
  | some s => simp [get_podcast, PodcastChannel.load, hfind]

/-- Witness for `get_podcast_contract` at concrete data: the known feed
of `w0` is found and projected, an unknown feed yields `none`, and the
world is unchanged. -/
theorem get_podcast_contract_witness :
    (get_podcast (fun s => s) feed0 cfg0 w0 "http://example.com/feed").2 = w0
    ∧ (get_podcast (fun s => s) feed0 cfg0 w0 "http://example.com/feed").1
        = some (Podcast.ofEntity e0)
    ∧ (get_podcast (fun s => s) feed0 cfg0 w0 "http://unknown.example/").1
        = none := by
  refine ⟨(get_podcast_contract (fun s => s) feed0 cfg0 w0
      "http://example.com/feed").1, ?_, ?_⟩
  · exact (get_podcast_contract (fun s => s) feed0 cfg0 w0
      "http://example.com/feed").2.2 e0 (by decide)
  · exact (get_podcast_contract (fun s => s) feed0 cfg0 w0
      "http://unknown.example/").2.1 (by decide)

/-- C3: `create_podcast` returns `none` (with the world unchanged) when
the underlying creation fails; on success the returned value is the
projection of an entity that carries the explicit title override when one
was supplied and that has been saved into the store before the function
returns. -/
theorem create_podcast_contract (norm : String → String)
    (feed : String → Option PodcastEntity) (cfg : Config) (w : World)
    (url : String) (title : Option String) :
    (w.subs.find? (fun s => s.url == norm url) = none →
      feed (norm url) = none →
      create_podcast norm feed cfg w url title = (none, w))
    ∧ (∀ pd w2, create_podcast norm feed cfg w url title = (some pd, w2) →
        ∃ e, pd = Podcast.ofEntity e
          ∧ (∀ t, title = some t → e.title = t)
          ∧ e ∈ w2.subs) := by
  constructor
  · intro h1 h2
    simp [create_podcast, PodcastChannel.load, h1, h2]
  · intro pd w2 hpd
    simp only [create_podcast, PodcastChannel.load] at hpd
    cases hfind : w.subs.find? (fun s => s.url == norm url) with
    | some s =>
      rw [hfind] at hpd
      cases title with
      | none =>
        simp only [Prod.mk.injEq, Option.some.injEq] at hpd
        obtain ⟨h1, h2⟩ := hpd
        refine ⟨s, h1.symm, by simp, ?_⟩
        rw [← h2]
        exact mem_subs_save s s w (List.mem_of_find?_eq_some hfind) rfl
      | some t =>
        simp only [Prod.mk.injEq, Option.some.injEq] at hpd
        obtain ⟨h1, h2⟩ := hpd
        refine ⟨s.set_custom_title t, h1.symm,
          by simp [PodcastEntity.set_custom_title], ?_⟩
        rw [← h2]
        exact mem_subs_save (s.set_custom_title t) s w
          (List.mem_of_find?_eq_some hfind) rfl
    | none =>
      rw [hfind] at hpd
      cases hfeed : feed (norm url) with
      | none => simp [hfeed] at hpd
      | some f =>
        rw [hfeed] at hpd
        cases title with
        | none =>
          simp only [ite_true, Prod.mk.injEq, Option.some.injEq] at hpd
          obtain ⟨h1, h2⟩ := hpd
          refine ⟨f, h1.symm, by simp, ?_⟩
          rw [← h2]
          exact mem_subs_save f f _ (by simp) rfl
        | some t =>
          simp only [ite_true, Prod.mk.injEq, Option.some.injEq] at hpd
          obtain ⟨h1, h2⟩ := hpd
          refine ⟨f.set_custom_title t, h1.symm,
            by simp [PodcastEntity.set_custom_title], ?_⟩
          rw [← h2]
          exact mem_subs_save (f.set_custom_title t) f _ (by simp) rfl

/-- Witness for `create_podcast_contract` at concrete data: an
unreachable feed yields `none` with the world unchanged, and a reachable
feed with title override `"X"` yields a projection whose title is `"X"`. -/
theorem create_podcast_contract_witness :
    create_podcast (fun s => s) feed0 cfg0 w0
        "http://missing.example/feed" none = (none, w0)
    ∧ (create_podcast (fun s => s) feed0 cfg0 w0
        "http://new.example/feed" (some "X")).1
        = some (Podcast.ofEntity
            { title := "X", url := "http://new.example/feed" }) := by
  constructor
  · exact (create_podcast_contract (fun s => s) feed0 cfg0 w0
      "http://missing.example/feed" none).1 (by decide) (by decide)
  · decide

/-- C4: `finish` reloads the current subscription list, writes exactly
that list to the configured OPML subscription file (overwriting whatever
was there), commits the pending store changes, and returns `true`
unconditionally — in that order. -/
theorem finish_contract (cfg : Config) (w : World) :
    (finish cfg w).1 = true
    ∧ (finish cfg w).2.1.opmlFile = some w.subs
    ∧ (finish cfg w).2.1.pendingCommit = false
    ∧ (finish cfg w).2.1.subs = w.subs
    ∧ (finish cfg w).2.2
        = [Event.loadFromDb, Event.opmlWrite w.subs, Event.storeCommit] :=
  ⟨rfl, rfl, rfl, rfl, rfl⟩

/-- C7: `Podcast.delete` removes the downloaded episode content of the
subscription, then deletes the subscription from the store (in that
order, per the event trace), clears the internal reference, and leaves a
projection on which every further method call fails. -/
theorem podcast_delete_contract (w : World) (p : Podcast)
    (e : PodcastEntity) (he : p._podcast = some e) :
    ∃ p2 w2,
      p.delete w = some (p2, w2,
        [Event.removeDownloaded e.url, Event.channelDelete e.url])
      ∧ p2._podcast = none
      ∧ (∀ f ∈ w2.files, f.1 ≠ e.url)
      ∧ (∀ s ∈ w2.subs, s.url ≠ e.url)
      ∧ (∀ ops t, p2.rename ops t = none)
      ∧ (∀ w3, p2.delete w3 = none)
      ∧ (∀ w3, p2.get_episodes w3 = none) := by
  rcases p with ⟨pe, pt, pu⟩
  cases he
  refine ⟨{ _podcast := none, title := pt, url := pu },
    (PodcastEntity.delete e (PodcastEntity.remove_downloaded e w)),
    rfl, rfl, ?_, ?_, fun ops t => rfl, fun w3 => rfl, fun w3 => rfl⟩
  · intro f hf
    simp only [PodcastEntity.delete, PodcastEntity.remove_downloaded,
      List.mem_filter] at hf
    simpa using hf.2
  · intro s hs
    simp only [PodcastEntity.delete, PodcastEntity.remove_downloaded,
      List.mem_filter] at hs
    simpa using hs.2

/-- Witness for `podcast_delete_contract` at concrete data: deleting `p0`
in `w0`. -/
theorem podcast_delete_contract_witness :
    p0._podcast = some e0
    ∧ ∃ p2 w2,
        p0.delete w0 = some (p2, w2,
          [Event.removeDownloaded e0.url, Event.channelDelete e0.url])
        ∧ p2._podcast = none
        ∧ (∀ f ∈ w2.files, f.1 ≠ e0.url)
        ∧ (∀ s ∈ w2.subs, s.url ≠ e0.url)
        ∧ (∀ ops t, p2.rename ops t = none)
        ∧ (∀ w3, p2.delete w3 = none)
        ∧ (∀ w3, p2.get_episodes w3 = none) :=
  ⟨rfl, podcast_delete_contract w0 p0 e0 rfl⟩

/-- C9: `Episode.download` constructs exactly one download task for the
wrapped entity, marks it queued, and runs it to completion before
returning: the returned world is exactly the queued task's synchronous
`run` effect, and that run ends with the task done. -/
theorem episode_download_contract (w : World) (ep : Episode)
    (e : EpisodeEntity) (he : ep._episode = some e) :
    ep.download w = some (ep,
        (({ DownloadTask.create e with status := TaskStatus.QUEUED }).run w).2,
        [Event.taskCreate e.url, Event.taskSetQueued, Event.taskRun])
    ∧ List.countP (fun ev => match ev with
          | Event.taskCreate _ => true
          | _ => false)
        [Event.taskCreate e.url, Event.taskSetQueued, Event.taskRun] = 1
    ∧ (({ DownloadTask.create e with status := TaskStatus.QUEUED }).run w).1.status
        = TaskStatus.DONE := by
  rcases ep with ⟨ee, et, eu, en, ed, edel⟩
  cases he
  exact ⟨rfl, rfl, rfl⟩

/-- Witness for `episode_download_contract` at concrete data:
downloading `epEnt0`'s projection in `w0`. -/
theorem episode_download_contract_witness :
    (Episode.ofEntity epEnt0)._episode = some epEnt0
    ∧ ((Episode.ofEntity epEnt0).download w0 = some (Episode.ofEntity epEnt0,
          (({ DownloadTask.create epEnt0 with
              status := TaskStatus.QUEUED }).run w0).2,
          [Event.taskCreate epEnt0.url, Event.taskSetQueued, Event.taskRun])
      ∧ List.countP (fun ev => match ev with
            | Event.taskCreate _ => true
            | _ => false)
          [Event.taskCreate epEnt0.url, Event.taskSetQueued, Event.taskRun] = 1
      ∧ (({ DownloadTask.create epEnt0 with
            status := TaskStatus.QUEUED }).run w0).1.status
          = TaskStatus.DONE) :=
  ⟨rfl, episode_download_contract w0 (Episode.ofEntity epEnt0) epEnt0 rfl⟩

/-- C10: `Episode.download` never refreshes the projection: all five
public attributes of the projection returned alongside the new world are
the construction-time snapshot values of the original projection. -/
theorem episode_download_frame (w : World) (ep : Episode)
    (r : Episode × World × List Event)
    (hd : ep.download w = some r) :
    r.1.title = ep.title ∧ r.1.url = ep.url ∧ r.1.is_new = ep.is_new
    ∧ r.1.is_downloaded = ep.is_downloaded
    ∧ r.1.is_deleted = ep.is_deleted := by
  rcases ep with ⟨ee, et, eu, en, ed, edel⟩
  cases ee with
  | none => simp [Episode.download] at hd
  | some e =>
    simp only [Episode.download] at hd
    cases hd
    exact ⟨rfl, rfl, rfl, rfl, rfl⟩

/-- Witness for `episode_download_frame` at concrete data: after a
successful download of the new, unplayed `epEnt0`, the stored episode is
downloaded while the same projection still reports
`is_downloaded = false` and `is_new = true`. -/
theorem episode_download_frame_witness :
    (Episode.ofEntity epEnt0).download w0 = some dlRes0
    ∧ (dlRes0.1.title = (Episode.ofEntity epEnt0).title
       ∧ dlRes0.1.url = (Episode.ofEntity epEnt0).url
       ∧ dlRes0.1.is_new = (Episode.ofEntity epEnt0).is_new
       ∧ dlRes0.1.is_downloaded = (Episode.ofEntity epEnt0).is_downloaded
       ∧ dlRes0.1.is_deleted = (Episode.ofEntity epEnt0).is_deleted)
    ∧ dlRes0.1.is_downloaded = false
    ∧ dlRes0.1.is_new = true
    ∧ dlRes0.2.1.episodes.map EpisodeEntity.state = [EpisodeState.downloaded] := by
  refine ⟨by decide,
    episode_download_frame w0 (Episode.ofEntity epEnt0) dlRes0 (by decide),
    by decide, by decide, by decide⟩

end GpodderApi
